import Mathlib

/-!
Verification of the SparkFun UHF RFID reader driver
(`src/gen2/src/SparkFun_UHF_RFID_Reader.cpp` / `.h`) against its
natural-language specification.

The driver is shallowly embedded: machine integers become `Nat` (with
explicit `% 2^w` wherever C truncation matters), byte arrays become
`List Nat` indexed with `List.getD` (reads past the end of the modelled
buffer return 0), fallible or possibly diverging loops are fuel-indexed
and return `Option`.  Every definition below is translated from the C
source; definitions whose names end in `_spec` are instead transcriptions
of the specification's own words, for refinement comparisons.
-/

/-! ## Result codes (SparkFun_UHF_RFID_Reader.h, lines 132-146) -/

def ALL_GOOD : Nat := 0

def ERROR_COMMAND_RESPONSE_TIMEOUT : Nat := 1

def ERROR_CORRUPT_RESPONSE : Nat := 2

def ERROR_WRONG_OPCODE_RESPONSE : Nat := 3

def ERROR_UNKNOWN_OPCODE : Nat := 4

def RESPONSE_IS_TEMPERATURE : Nat := 5

def RESPONSE_IS_KEEPALIVE : Nat := 6

def RESPONSE_IS_TEMPTHROTTLE : Nat := 7

def RESPONSE_IS_TAGFOUND : Nat := 8

def RESPONSE_IS_NOTAGFOUND : Nat := 9

def RESPONSE_IS_UNKNOWN : Nat := 10

def RESPONSE_SUCCESS : Nat := 11

def RESPONSE_FAIL : Nat := 12

def ERROR_INVALID_EPC_REQ : Nat := 13

def ERROR_INVALID_REQ : Nat := 14

/-! ## Memory-bank identifiers (header, lines 177-183) -/

def TMR_GEN2_BANK_RESERVED : Nat := 0x0

def TMR_GEN2_BANK_EPC : Nat := 0x1

def TMR_GEN2_BANK_TID : Nat := 0x2

def TMR_GEN2_BANK_USER : Nat := 0x3

/-! ## CRC (RFID::calculateCRC, cpp lines 2030-2045)

`crctable` is the 16-entry static table; `crcNibble` is one update
`crc = ((crc << 4) | nibble) ^ crctable[crc >> 12]` with the assignment
back into the `uint16_t` variable modelled by `% 65536`;
`crcByteStep` is the loop body (high nibble `u8Buf[i] >> 4` first, then
low nibble `u8Buf[i] & 0x0F`); `calculateCRC` is the whole loop from
seed `0xFFFF`. -/

def crctable : List Nat :=
  [0x0000, 0x1021, 0x2042, 0x3063, 0x4084, 0x50a5, 0x60c6, 0x70e7,
   0x8108, 0x9129, 0xa14a, 0xb16b, 0xc18c, 0xd1ad, 0xe1ce, 0xf1ef]

def crcNibble (crc nib : Nat) : Nat :=
  (((crc <<< 4) ||| nib) ^^^ crctable.getD (crc >>> 12) 0) % 65536

def crcByteStep (crc b : Nat) : Nat :=
  crcNibble (crcNibble crc (b >>> 4)) (b &&& 0x0F)

def calculateCRC (u8Buf : List Nat) : Nat :=
  u8Buf.foldl crcByteStep 0xFFFF

/-! ## CRC as the specification words it (spec §4.1)

"Seed 0xFFFF.  For each input byte, processed as two nibbles
[high then low], update `crc = ((crc << 4) | nibble) ^ table[crc >> 12]`
using a fixed 16-entry table indexed by the top nibble of `crc`."
Transcribed independently of the code: the table is a function on the
top nibble, shifts are written as arithmetic. -/

def crcTable_spec : Nat → Nat
  | 0 => 0x0000 | 1 => 0x1021 | 2 => 0x2042 | 3 => 0x3063
  | 4 => 0x4084 | 5 => 0x50a5 | 6 => 0x60c6 | 7 => 0x70e7
  | 8 => 0x8108 | 9 => 0x9129 | 10 => 0xa14a | 11 => 0xb16b
  | 12 => 0xc18c | 13 => 0xd1ad | 14 => 0xe1ce | 15 => 0xf1ef
  | _ => 0

def crcStep_spec (crc nib : Nat) : Nat :=
  ((crc * 16 ||| nib) ^^^ crcTable_spec (crc / 4096)) % 65536

def byteNibbles_spec (b : Nat) : List Nat := [b / 16, b % 16]

def crc16_spec (bs : List Nat) : Nat :=
  (bs.flatMap byteNibbles_spec).foldl crcStep_spec 0xFFFF

lemma crctable_getD_eq : ∀ i < 16, crctable.getD i 0 = crcTable_spec i := by
  decide

lemma crcNibble_lt (crc nib : Nat) : crcNibble crc nib < 65536 := by
  have : 0 < 65536 := by norm_num
  exact Nat.mod_lt _ this

lemma crcNibble_eq_spec (crc nib : Nat) (h : crc < 65536) :
    crcNibble crc nib = crcStep_spec crc nib := by
  unfold crcNibble crcStep_spec
  have h1 : crc <<< 4 = crc * 16 := by
    rw [Nat.shiftLeft_eq]
  have h2 : crc >>> 12 = crc / 4096 := by
    rw [Nat.shiftRight_eq_div_pow]
  have h3 : crc / 4096 < 16 := by omega
  rw [h1, h2, crctable_getD_eq _ h3]

lemma crc_foldl_eq_spec (bs : List Nat) :
    ∀ crc, crc < 65536 →
      bs.foldl crcByteStep crc =
        (bs.flatMap byteNibbles_spec).foldl crcStep_spec crc := by
  induction bs with
  | nil => intro crc _; simp
  | cons b bs ih =>
      intro crc hcrc
      have hhi : b >>> 4 = b / 16 := by
        rw [Nat.shiftRight_eq_div_pow]
      have hlo : b &&& 0x0F = b % 16 := by
        have := Nat.and_pow_two_sub_one_eq_mod b 4
        simpa using this
      have hmid : crcStep_spec crc (b / 16) < 65536 := by
        unfold crcStep_spec
        exact Nat.mod_lt _ (by norm_num)
      have hstep : crcByteStep crc b =
          crcStep_spec (crcStep_spec crc (b / 16)) (b % 16) := by
        unfold crcByteStep
        rw [hhi, hlo, crcNibble_eq_spec _ _ hcrc, crcNibble_eq_spec _ _ hmid]
      have hlt : crcByteStep crc b < 65536 := by
        unfold crcByteStep; exact crcNibble_lt _ _
      simp only [List.flatMap_cons, List.foldl_cons, List.foldl_append,
        byteNibbles_spec]
      rw [← hstep]
      simpa using ih (crcByteStep crc b) hlt

/-- C1: for every byte sequence, `RFID::calculateCRC` computes exactly the
nibble-wise algorithm the specification fixes: seed 0xFFFF, each byte
processed high nibble then low nibble, with
`crc = ((crc << 4) | nibble) ^ table[crc >> 12]` over the fixed 16-entry
table indexed by the top nibble of `crc`.  Both sides are pure Lean
functions, so the CRC is in particular deterministic. -/
theorem crc16_code_matches_spec : ∀ bs : List Nat, calculateCRC bs = crc16_spec bs := by
  intro bs
  unfold calculateCRC crc16_spec
  exact crc_foldl_eq_spec bs 0xFFFF (by norm_num)

/-! ## Synchronous-transport response validation
(RFID::sendCommand, cpp lines 1930-2004)

Once a complete response frame sits in the shared `msg` array, the code
recomputes `messageLength = msg[1] + 7` (a `uint8_t`, hence `% 256`),
checks the CRC computed over `&msg[1]` for `messageLength - 3` bytes
against the trailing two bytes, then compares the response opcode
`msg[2]` with the request opcode, writing exactly one of
`ERROR_CORRUPT_RESPONSE`, `ERROR_WRONG_OPCODE_RESPONSE`, `ALL_GOOD`
into `msg[0]`. -/

def respMsgLength (msg : List Nat) : Nat := (msg.getD 1 0 + 7) % 256

def respCRC (msg : List Nat) : Nat :=
  calculateCRC ((msg.drop 1).take (respMsgLength msg - 3))

def crcOk (msg : List Nat) : Bool :=
  (msg.getD (respMsgLength msg - 2) 0 == respCRC msg >>> 8) &&
  (msg.getD (respMsgLength msg - 1) 0 == respCRC msg &&& 0xFF)

def sendCommandValidate (opcode : Nat) (msg : List Nat) : Nat :=
  if crcOk msg = false then ERROR_CORRUPT_RESPONSE
  else if msg.getD 2 0 ≠ opcode then ERROR_WRONG_OPCODE_RESPONSE
  else ALL_GOOD

/-- C2: for every complete response frame, `RFID::sendCommand` validates
in order with mutually exclusive outcomes: CRC mismatch over the region
starting at byte 1 against the trailing two bytes yields exactly
`ERROR_CORRUPT_RESPONSE`; CRC success with a response opcode differing
from the request opcode yields exactly `ERROR_WRONG_OPCODE_RESPONSE`;
and only when both checks pass is the result `ALL_GOOD`. -/
theorem sendCommand_validation_order : ∀ (opcode : Nat) (msg : List Nat),
    (sendCommandValidate opcode msg = ERROR_CORRUPT_RESPONSE ↔ crcOk msg = false) ∧
    (sendCommandValidate opcode msg = ERROR_WRONG_OPCODE_RESPONSE ↔
      crcOk msg = true ∧ msg.getD 2 0 ≠ opcode) ∧
    (sendCommandValidate opcode msg = ALL_GOOD ↔
      crcOk msg = true ∧ msg.getD 2 0 = opcode) := by
  intro opcode msg
  unfold sendCommandValidate
  unfold ERROR_CORRUPT_RESPONSE ERROR_WRONG_OPCODE_RESPONSE ALL_GOOD
  refine ⟨?_, ?_, ?_⟩ <;> split_ifs with h1 h2 <;> simp_all

/-- C2 witness: the validation outcomes evaluated on a concrete
well-formed frame (opcode 0x22, empty data, correct CRC bytes 0x84 0xE0):
the exchange succeeds exactly because CRC and opcode both match. -/
theorem sendCommand_validation_order_witness :
    sendCommandValidate 0x22 [0xFF, 0x00, 0x22, 0x04, 0x00, 0x84, 0xE0] = ALL_GOOD :=
  (sendCommand_validation_order 0x22
    [0xFF, 0x00, 0x22, 0x04, 0x00, 0x84, 0xE0]).2.2.mpr ⟨by decide, by decide⟩

/-! ## Continuous-mode frame classifier
(RFID::parseResponse, cpp lines 1711-1845)

The function recomputes `uint8_t msgLength = msg[1] + 7`, runs the same
CRC check as `sendCommand` (modelled by `crcOk`), and then classifies
opcode-0x22 frames by the payload-length byte `msg[1]`.  The local
variable `statusMsg` is initialised to 0 and is loaded from
`msg[3..4]` only inside the `msg[1] == 0x00` branch; the
`msg[1] == 0x0E` branch tests the *uninitialised* `statusMsg`, which is
therefore still 0 there.  A chain of `if`s with no trailing `else`
falls through to `ERROR_UNKNOWN_OPCODE`. -/

def parseResponse (msg : List Nat) : Nat :=
  let statusMsg : Nat := 0
  if crcOk msg = false then ERROR_CORRUPT_RESPONSE
  else if msg.getD 2 0 = 0x22 then
    if msg.getD 1 0 = 0x00 then
      let statusMsg := (msg.getD 3 0 <<< 8) ||| msg.getD 4 0
      if statusMsg = 0x0400 then RESPONSE_IS_KEEPALIVE
      else if statusMsg = 0x0504 then RESPONSE_IS_TEMPTHROTTLE
      else ERROR_UNKNOWN_OPCODE
    else if msg.getD 1 0 = 0x08 then RESPONSE_IS_UNKNOWN
    else if msg.getD 1 0 = 0x0E then
      if statusMsg = 0x0400 then RESPONSE_IS_KEEPALIVE
      else ERROR_UNKNOWN_OPCODE
    else if msg.getD 1 0 = 0x0A then RESPONSE_IS_TEMPERATURE
    else RESPONSE_IS_TAGFOUND
  else ERROR_UNKNOWN_OPCODE

set_option maxRecDepth 16000

/-- A length-14 continuous-mode frame with status word 0x0400 and a
correct trailing CRC, byte for byte the keep-alive example documented in
the source comment above the `msg[1] == 0x0E` branch. -/
def kaFrame14 : List Nat :=
  let body : List Nat := [0x0E, 0x22, 0x04, 0x00, 0x00, 0x01, 0x1F, 0x00, 0x00,
    0x00, 0x00, 0x00, 0x01, 0x28, 0x00, 0x00, 0x00, 0x00]
  0xFF :: body ++ [calculateCRC body >>> 8, calculateCRC body &&& 0xFF]

/-- C4 (code bug): the classifier does NOT map a CRC-valid frame with
payload length 14 and status word 0x0400 to `RESPONSE_IS_KEEPALIVE` as
both the specification and the code's own comment require: the
`msg[1] == 0x0E` branch compares the still-zero local `statusMsg`
against 0x0400 without ever loading the frame's status bytes, so the
frame falls through to `ERROR_UNKNOWN_OPCODE`. -/
theorem parseResponse_len14_keepalive_bug :
    kaFrame14.getD 1 0 = 14 ∧
    (kaFrame14.getD 3 0 <<< 8) ||| kaFrame14.getD 4 0 = 0x0400 ∧
    crcOk kaFrame14 = true ∧
    parseResponse kaFrame14 = ERROR_UNKNOWN_OPCODE ∧
    ERROR_UNKNOWN_OPCODE ≠ RESPONSE_IS_KEEPALIVE := by
  refine ⟨by decide, by decide, by decide, by decide, by decide⟩

/-- A CRC-valid opcode-0x22 frame with payload length 2 and a junk
status word: a length/status combination matching none of the documented
discriminants. -/
def junkFrame2 : List Nat :=
  let body : List Nat := [0x02, 0x22, 0x12, 0x34, 0xAB, 0xCD]
  0xFF :: body ++ [calculateCRC body >>> 8, calculateCRC body &&& 0xFF]

/-- C5 counterexample: `junkFrame2` matches none of the documented
discriminants (lengths 0, 8, 14, 10 with their markers), yet the
classifier returns `RESPONSE_IS_TAGFOUND`, not `RESPONSE_IS_UNKNOWN`:
the `else` default of the chain is the tag-found discriminant. -/
theorem parseResponse_unrecognized_is_tagfound_counterexample :
    junkFrame2.getD 1 0 = 2 ∧
    parseResponse junkFrame2 = RESPONSE_IS_TAGFOUND ∧
    RESPONSE_IS_TAGFOUND ≠ RESPONSE_IS_UNKNOWN := by
  refine ⟨by decide, by decide, by decide⟩

/-- C5 amended: only payload length 8 maps to `RESPONSE_IS_UNKNOWN`;
every CRC-valid opcode-0x22 frame whose payload length is none of the
recognized discriminant lengths 0, 8, 14, 10 is classified with the
default `RESPONSE_IS_TAGFOUND`. -/
theorem parseResponse_default_classification : ∀ msg : List Nat,
    (crcOk msg = true → msg.getD 2 0 = 0x22 → msg.getD 1 0 = 0x08 →
      parseResponse msg = RESPONSE_IS_UNKNOWN) ∧
    (crcOk msg = true → msg.getD 2 0 = 0x22 →
      msg.getD 1 0 ≠ 0x00 → msg.getD 1 0 ≠ 0x08 → msg.getD 1 0 ≠ 0x0E →
      msg.getD 1 0 ≠ 0x0A →
      parseResponse msg = RESPONSE_IS_TAGFOUND) := by
  intro msg
  constructor
  · intro hcrc hop hlen
    unfold parseResponse
    split_ifs <;> simp_all
  · intro hcrc hop h0 h8 h14 h10
    unfold parseResponse
    split_ifs <;> simp_all

/-- C5 amended, witness: the default classification evaluated at
`junkFrame2` (length 2) and at a CRC-valid length-8 frame. -/
theorem parseResponse_default_classification_witness :
    parseResponse junkFrame2 = RESPONSE_IS_TAGFOUND :=
  (parseResponse_default_classification junkFrame2).2 (by decide) (by decide)
    (by decide) (by decide) (by decide) (by decide)

/-! ## RSSI decoding (RFID::getTagRSSI, cpp line 1699; RFID::ReadingAllBanks,
cpp line 843)

`getTagRSSI` returns `msg[12] - 256` through an `int8_t` return type:
the C conversion of the `int` value into `int8_t` is modular, modelled
by `toInt8`.  `ReadingAllBanks` stores `msg[10] - 256` into the
`int32_t` field `read->rssi`, with no narrowing at all. -/

def toInt8 (v : Int) : Int :=
  let r := v % 256
  if r ≥ 128 then r - 256 else r

def getTagRSSI (msg : List Nat) : Int :=
  toInt8 ((msg.getD 12 0 : Int) - 256)

def readingAllBanksRSSI (msg : List Nat) : Int :=
  (msg.getD 10 0 : Int) - 256

/-- The decoding of one RSSI byte as the specification words it:
subtract 256 when the byte is at least 128, keep it unchanged otherwise
(the two's-complement reading of the byte). -/
def rssi_spec (b : Nat) : Int :=
  if b ≥ 128 then (b : Int) - 256 else (b : Int)

/-- C9 counterexample: in `ReadingAllBanks` the RSSI payload byte 0
(below 128, which the claim says is left unchanged) is decoded as
0 - 256 = -256, because the code subtracts 256 unconditionally into an
`int32_t` field. -/
theorem readingAllBanksRSSI_counterexample :
    readingAllBanksRSSI [0, 0, 0, 0, 0, 0, 0, 0, 0, 0, 0] = -256 ∧
    rssi_spec 0 = 0 ∧ (-256 : Int) ≠ 0 := by
  refine ⟨by decide, by decide, by decide⟩

/-- C9 amended: `getTagRSSI` does decode its payload byte as the claim
states (two's complement: subtract 256 exactly when the byte is ≥ 128),
but `ReadingAllBanks` decodes its RSSI byte as `b - 256` unconditionally,
which agrees with the claim only for bytes ≥ 128. -/
theorem rssi_decoding_amended : ∀ msg : List Nat,
    (msg.getD 12 0 < 256 → getTagRSSI msg = rssi_spec (msg.getD 12 0)) ∧
    (readingAllBanksRSSI msg = (msg.getD 10 0 : Int) - 256) ∧
    (128 ≤ msg.getD 10 0 → readingAllBanksRSSI msg = rssi_spec (msg.getD 10 0)) := by
  intro msg
  refine ⟨?_, rfl, ?_⟩
  · intro hb
    unfold getTagRSSI toInt8 rssi_spec
    have hb' : ((msg.getD 12 0 : Int)) < 256 := by exact_mod_cast hb
    have hb0 : (0 : Int) ≤ (msg.getD 12 0 : Int) := Int.natCast_nonneg _
    by_cases h : 128 ≤ msg.getD 12 0
    · have h' : (128 : Int) ≤ (msg.getD 12 0 : Int) := by exact_mod_cast h
      simp only [ge_iff_le]
      omega
    · have h' : (msg.getD 12 0 : Int) < 128 := by
        have := lt_of_not_ge h
        exact_mod_cast this
      simp only [ge_iff_le]
      omega
  · intro hb
    unfold readingAllBanksRSSI rssi_spec
    rw [if_pos hb]

/-- C9 amended, witness: the two decodings evaluated on a message whose
RSSI bytes are 0xE9 (≥ 128) and 0x10 (< 128). -/
theorem rssi_decoding_amended_witness :
    getTagRSSI [0, 0, 0, 0, 0, 0, 0, 0, 0, 0, 0xE9, 0, 0x10] =
      rssi_spec 0x10 ∧
    readingAllBanksRSSI [0, 0, 0, 0, 0, 0, 0, 0, 0, 0, 0xE9, 0, 0x10] =
      rssi_spec 0xE9 :=
  ⟨(rssi_decoding_amended [0, 0, 0, 0, 0, 0, 0, 0, 0, 0, 0xE9, 0, 0x10]).1
      (by decide),
   (rssi_decoding_amended [0, 0, 0, 0, 0, 0, 0, 0, 0, 0, 0xE9, 0, 0x10]).2.2
      (by decide)⟩

/-! ## Temperature query (RFID::getTemp, cpp lines 550-564; the cached
value `_contTemp` is an `int8_t` loaded from the stats side-channel in
RFID::check, cpp lines 1601-1604)

The pair's second component counts the `sendMessage` exchanges the call
performs (each exchange writes a full frame to the transport and reads
the response); `exchange` is the `msg` array as the non-continuous
branch's `sendMessage(TMR_SR_OPCODE_GET_TEMPERATURE)` leaves it. -/

def getTemp (continuousModeTemp : Bool) (contTemp : Int)
    (exchange : List Nat) : Int × Nat :=
  if continuousModeTemp then
    (if contTemp > 0 then contTemp else -1, 0)
  else
    (if exchange.getD 0 0 = ALL_GOOD then toInt8 (exchange.getD 5 0 : Int)
     else -1, 1)

/-- The stats side-channel update in `RFID::check`: when a completed
continuous-mode frame carries a stats-update marker with the temperature
indicator, `_contTemp` is loaded (through its `int8_t` type) from
`msg[14]`. -/
def checkStatsUpdate (contTemp : Int) (msg : List Nat) : Int :=
  if msg.getD 8 0 = 0x02 ∧ msg.getD 13 0 = 1 ∧ msg.getD 11 0 = 0x82 then
    toInt8 (msg.getD 14 0 : Int)
  else contTemp

/-- C10: while continuous mode is active, `getTemp` performs zero
transport exchanges and returns the cached `_contTemp` when it is
strictly positive, and -1 when the cache is zero (the initial state) or
negative; -1 is the same value the non-continuous path returns on a
failed exchange. -/
theorem getTemp_continuous_no_traffic : ∀ (contTemp : Int) (exchange : List Nat),
    (getTemp true contTemp exchange).2 = 0 ∧
    (0 < contTemp → (getTemp true contTemp exchange).1 = contTemp) ∧
    (contTemp ≤ 0 → (getTemp true contTemp exchange).1 = -1) ∧
    (getTemp true 0 exchange).1 = -1 ∧
    (exchange.getD 0 0 ≠ ALL_GOOD → (getTemp false contTemp exchange).1 = -1) := by
  intro contTemp exchange
  refine ⟨rfl, ?_, ?_, by norm_num [getTemp], ?_⟩
  · intro h
    unfold getTemp
    rw [if_pos rfl, if_pos h]
  · intro h
    unfold getTemp
    rw [if_pos rfl, if_neg (by omega)]
  · intro h
    unfold getTemp
    split_ifs <;> simp_all

/-- C10 witness: the continuous-mode branch evaluated at a positive
cache (37), at the initial zero cache, and at a negative cache (-5),
plus the failed-exchange path. -/
theorem getTemp_continuous_no_traffic_witness :
    (getTemp true 37 []).2 = 0 ∧ (getTemp true 37 []).1 = 37 ∧
    (getTemp true (-5) []).1 = -1 ∧ (getTemp false 37 [1]).1 = -1 :=
  ⟨(getTemp_continuous_no_traffic 37 []).1,
   (getTemp_continuous_no_traffic 37 []).2.1 (by decide),
   (getTemp_continuous_no_traffic (-5) []).2.2.1 (by decide),
   (getTemp_continuous_no_traffic 37 [1]).2.2.2.2 (by decide)⟩

/-! ## Selective-match read (RFID::SelectiveReadDataRegion, cpp
lines 1045-1180)

`SelectEPC` is the header's filter structure.  The transport peer is
modelled as a function giving, for the k-th
`sendMessage(TMR_SR_OPCODE_READ_TAG_ID_MULTIPLE, ...)` attempt, the
contents of the shared `msg` array after that exchange (`msg[0]` holds
`sendCommand`'s result code).  `sends` counts `sendMessage` calls (each
writes a complete frame to the transport): three setup sends
(`SET_READER_OPTIONAL_PARAMS`, the one inside `disableReadFilter`,
`CLEAR_TAG_ID_BUFFER`) precede the loop.  The retry test is the code's
`retryCount++ > selepc->RetryCount` on the `uint8_t` counter (old value
compared, then incremented mod 256).  The loop can run forever
(`RetryCount == 0` with no match), so it takes fuel and returns
`Option`. -/

structure SelectEPC where
  TMR_EPC : List Nat
  EPClen : Nat
  EPCoffset : Nat
  RetryCount : Nat
deriving DecidableEq

/-- The match test of the loop body: all `EPClen` bytes of the response
EPC at `EPCBankStartPos + EPCoffset` equal the filter pattern. -/
def epcMatch (selepc : SelectEPC) (EPCBankStartPos : Nat) (m : List Nat) : Bool :=
  (List.range selepc.EPClen).all fun e =>
    m.getD (EPCBankStartPos + selepc.EPCoffset + e) 0 == selepc.TMR_EPC.getD e 0

inductive SelLoopExit where
  | fail
  | timeout
  | matched (k : Nat)
deriving DecidableEq

/-- The `while (!MatchFound)` loop: returns the exit kind together with
the number of read attempts performed. -/
def selLoop (selepc : SelectEPC) (EPCBankStartPos : Nat)
    (peer : Nat → List Nat) : Nat → Nat → Nat → Option (SelLoopExit × Nat)
  | 0, _, _ => none
  | fuel + 1, retryCount, attempt =>
    let m := peer attempt
    if m.getD 0 0 ≠ ALL_GOOD then some (.fail, attempt + 1)
    else if epcMatch selepc EPCBankStartPos m then some (.matched attempt, attempt + 1)
    else if selepc.RetryCount ≠ 0 then
      if retryCount > selepc.RetryCount then some (.timeout, attempt + 1)
      else selLoop selepc EPCBankStartPos peer fuel ((retryCount + 1) % 256) (attempt + 1)
    else selLoop selepc EPCBankStartPos peer fuel retryCount (attempt + 1)

/-- Where the requested bank's data starts in the matched response
(cpp lines 1150-1157). -/
def BankStartPosOf (bank : Nat) : Nat :=
  if bank = TMR_GEN2_BANK_EPC then 23 else 39

/-- The bank length the code works with: hardcoded 12 bytes for the EPC
bank, the reported length byte `msg[38]` otherwise. -/
def BanklengthOf (bank : Nat) (m : List Nat) : Nat :=
  if bank = TMR_GEN2_BANK_EPC then 12 else m.getD 38 0

/-- The post-match extraction (cpp lines 1150-1179): reject the request
when the window in bytes overruns the bank length, otherwise copy
`min(length*2, capacity)` bytes starting at the `uint8_t` index
`BankStartPos + address*2`.  `address` is a `uint32_t`, so the C guard
`Banklength < (address * 2) + (length * 2)` computes the window in
`uint32_t` arithmetic, wrapping mod 2^32; the `uint8_t` `BankStart`
wraps mod 256.  Returns (result code, bytes copied,
`dataLengthRead`). -/
def selExtract (bank address length capacity : Nat) (m : List Nat) :
    Nat × List Nat × Nat :=
  if BanklengthOf bank m < (address * 2 + length * 2) % 4294967296 then
    (ERROR_INVALID_REQ, [], 0)
  else
    let BankStart := (BankStartPosOf bank + address * 2) % 256
    let n := min (length * 2) capacity
    (RESPONSE_SUCCESS, (List.range n).map (fun x => m.getD (BankStart + x) 0), n)

structure SelOutcome where
  code : Nat
  dataRead : List Nat
  dataLengthRead : Nat
  sends : Nat
  attempts : Nat
deriving DecidableEq

def SelectiveReadDataRegion (selepc : SelectEPC) (bank address length : Nat)
    (capacity : Nat) (peer : Nat → List Nat) (fuel : Nat) : Option SelOutcome :=
  if selepc.EPCoffset + selepc.EPClen > 12 ∨ selepc.EPCoffset = 12 then
    some ⟨ERROR_INVALID_EPC_REQ, [], 0, 0, 0⟩
  else
    let EPCBankStartPos := if bank = TMR_GEN2_BANK_EPC then 23 else 25
    match selLoop selepc EPCBankStartPos peer fuel 0 0 with
    | none => none
    | some (.fail, a) => some ⟨RESPONSE_FAIL, [], 0, 3 + a, a⟩
    | some (.timeout, a) => some ⟨ERROR_COMMAND_RESPONSE_TIMEOUT, [], 0, 3 + a, a⟩
    | some (.matched k, a) =>
        let r := selExtract bank address length capacity (peer k)
        some ⟨r.1, r.2.1, r.2.2, 3 + a, a⟩

/-- C6: whenever `filter.offset + len(filter.pattern) > 12` or
`filter.offset = 12`, `SelectiveReadDataRegion` returns
`ERROR_INVALID_EPC_REQ` with `dataLengthRead = 0` and performs zero
`sendMessage` calls: no bytes reach the transport. -/
theorem selectiveRead_invalid_filter_no_traffic :
    ∀ (selepc : SelectEPC) (bank address length capacity : Nat)
      (peer : Nat → List Nat) (fuel : Nat),
    selepc.EPCoffset + selepc.EPClen > 12 ∨ selepc.EPCoffset = 12 →
    SelectiveReadDataRegion selepc bank address length capacity peer fuel
      = some ⟨ERROR_INVALID_EPC_REQ, [], 0, 0, 0⟩ := by
  intro selepc bank address length capacity peer fuel h
  unfold SelectiveReadDataRegion
  rw [if_pos h]

/-- C6 witness: a filter with offset 12 (and one with offset 5 and an
8-byte pattern, 5 + 8 > 12) is rejected with no transport traffic. -/
theorem selectiveRead_invalid_filter_no_traffic_witness :
    SelectiveReadDataRegion ⟨[0xAA], 1, 12, 0⟩ 3 0 1 16 (fun _ => [0]) 9
        = some ⟨ERROR_INVALID_EPC_REQ, [], 0, 0, 0⟩ ∧
    SelectiveReadDataRegion ⟨[1, 2, 3, 4, 5, 6, 7, 8], 8, 5, 0⟩ 3 0 1 16
        (fun _ => [0]) 9 = some ⟨ERROR_INVALID_EPC_REQ, [], 0, 0, 0⟩ :=
  ⟨selectiveRead_invalid_filter_no_traffic ⟨[0xAA], 1, 12, 0⟩ 3 0 1 16
      (fun _ => [0]) 9 (Or.inr rfl),
   selectiveRead_invalid_filter_no_traffic ⟨[1, 2, 3, 4, 5, 6, 7, 8], 8, 5, 0⟩
      3 0 1 16 (fun _ => [0]) 9 (Or.inl (by decide))⟩

lemma selLoop_succ (selepc : SelectEPC) (E : Nat) (peer : Nat → List Nat)
    (fuel retryCount attempt : Nat) :
    selLoop selepc E peer (fuel + 1) retryCount attempt =
      (let m := peer attempt
       if m.getD 0 0 ≠ ALL_GOOD then some (.fail, attempt + 1)
       else if epcMatch selepc E m then some (.matched attempt, attempt + 1)
       else if selepc.RetryCount ≠ 0 then
         if retryCount > selepc.RetryCount then some (.timeout, attempt + 1)
         else selLoop selepc E peer fuel ((retryCount + 1) % 256) (attempt + 1)
       else selLoop selepc E peer fuel retryCount (attempt + 1)) := rfl

/-- A filter asking for one pattern byte 0xAA at offset 0 with
`RetryCount = 3`. -/
def selRetry3 : SelectEPC := ⟨[0xAA], 1, 0, 3⟩

/-- A peer whose every exchange succeeds at the transport level
(`msg[0] = ALL_GOOD`) but never carries the wanted EPC byte. -/
def mismatchPeer : Nat → List Nat := fun _ => [0]

/-- C3 counterexample: with `RetryCount = 3` and a peer that never
matches, `SelectiveReadDataRegion` performs 5 read attempts (the initial
attempt plus 4 passes of the `retryCount++ > RetryCount` post-increment
test), not the 4 the claim states, before returning the retry-exceeded
code `ERROR_COMMAND_RESPONSE_TIMEOUT`. -/
theorem selectiveRead_retry3_counterexample :
    SelectiveReadDataRegion selRetry3 3 0 0 0 mismatchPeer 10
      = some ⟨ERROR_COMMAND_RESPONSE_TIMEOUT, [], 0, 8, 5⟩ ∧ (5 : Nat) ≠ 4 :=
  ⟨by decide, by decide⟩

/-- C3 amended: with `filter.retryLimit = 3` and a peer whose every
valid response fails the EPC comparison, the loop terminates with the
retry-exceeded code after exactly 5 read attempts (the initial attempt
plus 4 retries), for every such peer and any sufficient fuel. -/
theorem selectiveRead_retryLimit3_five_attempts :
    ∀ (selepc : SelectEPC) (bank address length capacity : Nat)
      (peer : Nat → List Nat) (fuel : Nat),
    selepc.EPCoffset + selepc.EPClen ≤ 12 →
    selepc.EPCoffset ≠ 12 →
    selepc.RetryCount = 3 →
    (∀ k, (peer k).getD 0 0 = ALL_GOOD) →
    (∀ k, epcMatch selepc (if bank = TMR_GEN2_BANK_EPC then 23 else 25)
      (peer k) = false) →
    5 ≤ fuel →
    SelectiveReadDataRegion selepc bank address length capacity peer fuel
      = some ⟨ERROR_COMMAND_RESPONSE_TIMEOUT, [], 0, 8, 5⟩ := by
  intro selepc bank address length capacity peer fuel h12 hoff hretry hv hm hfuel
  have hguard : ¬(selepc.EPCoffset + selepc.EPClen > 12 ∨ selepc.EPCoffset = 12) := by
    push_neg
    exact ⟨by omega, hoff⟩
  have step : ∀ f r a,
      selLoop selepc (if bank = TMR_GEN2_BANK_EPC then 23 else 25) peer (f + 1) r a =
        if r > 3 then some (.timeout, a + 1)
        else selLoop selepc (if bank = TMR_GEN2_BANK_EPC then 23 else 25) peer f
          ((r + 1) % 256) (a + 1) := by
    intro f r a
    rw [selLoop_succ]
    simp only [hv a, hm a, hretry, ne_eq, not_true_eq_false, if_false,
      Bool.false_eq_true, OfNat.ofNat_ne_zero, not_false_eq_true, if_true]
  obtain ⟨n, rfl⟩ : ∃ n, fuel = n + 5 := ⟨fuel - 5, by omega⟩
  have e : selLoop selepc (if bank = TMR_GEN2_BANK_EPC then 23 else 25) peer
      (n + 5) 0 0 = some (.timeout, 5) := by
    rw [show n + 5 = (n + 4) + 1 from rfl, step (n + 4) 0 0, if_neg (by norm_num)]
    norm_num
    rw [show n + 4 = (n + 3) + 1 from rfl, step (n + 3) 1 1, if_neg (by norm_num)]
    norm_num
    rw [show n + 3 = (n + 2) + 1 from rfl, step (n + 2) 2 2, if_neg (by norm_num)]
    norm_num
    rw [show n + 2 = (n + 1) + 1 from rfl, step (n + 1) 3 3, if_neg (by norm_num)]
    norm_num
    rw [step n 4 4, if_pos (by norm_num)]
  unfold SelectiveReadDataRegion
  rw [if_neg hguard]
  simp only [e]

/-- C3 amended, witness: the five-attempt bound evaluated at the
concrete filter `selRetry3` against the never-matching peer. -/
theorem selectiveRead_retryLimit3_five_attempts_witness :
    SelectiveReadDataRegion selRetry3 3 0 0 16 mismatchPeer 12
      = some ⟨ERROR_COMMAND_RESPONSE_TIMEOUT, [], 0, 8, 5⟩ :=
  selectiveRead_retryLimit3_five_attempts selRetry3 3 0 0 16 mismatchPeer 12
    (by decide) (by decide) rfl (fun _ => rfl) (fun _ => rfl) (by norm_num)

lemma map_getD_range_eq_drop_take (m : List Nat) (s n : Nat)
    (h : s + n ≤ m.length) :
    (List.range n).map (fun x => m.getD (s + x) 0) = (m.drop s).take n := by
  apply List.ext_getElem
  · simp
    omega
  · intro i h1 h2
    simp only [List.getElem_map, List.getElem_range, List.getElem_take,
      List.getElem_drop]
    have hi : i < n := by simpa using h1
    have hsi : s + i < m.length := by omega
    rw [List.getD_eq_getElem m 0 hsi]

/-- A 41-byte matched response whose reported bank length byte
`msg[38]` is 4, with recognizable data bytes 7 and 8 at indices 39
and 40. -/
def winMsg1 : List Nat := List.replicate 38 0 ++ [4, 7, 8]

/-- A 300-byte response image with `msg[38] = 255` and every other byte
equal to its index mod 250, so that bytes at different positions are
distinguishable. -/
def winMsg2 : List Nat :=
  (List.range 300).map fun i => if i = 38 then 255 else i % 250

/-- C7 counterexample: the claim fails on the code in two
defined-behavior ways.  (1) The C guard computes
`(address * 2) + (length * 2)` in `uint32_t`: at `address = 2^31`,
`length = 1` the wrapped window is 2 bytes, so against a reported bank
length of 4 the code succeeds and copies data, where the claim (window
`2^32 + 2` exceeds the bank length) requires `ERROR_INVALID_REQ`.
(2) The `uint8_t` start index `BankStartPos + address*2` wraps mod 256:
at `address = 109` (window 220 within a reported length of 255) the code
copies from index (39 + 218) % 256 = 1 of the response, byte 1, not from
the claimed window at byte offset `address*2` inside the bank, whose
byte at index 257 is 7. -/
theorem selectiveRead_window_wrap_counterexample :
    (selExtract 3 2147483648 1 2 winMsg1 = (RESPONSE_SUCCESS, [7, 8], 2) ∧
      BanklengthOf 3 winMsg1 < 2147483648 * 2 + 1 * 2 ∧
      RESPONSE_SUCCESS ≠ ERROR_INVALID_REQ) ∧
    (selExtract 3 109 1 1 winMsg2 = (RESPONSE_SUCCESS, [1], 1) ∧
      (winMsg2.drop (BankStartPosOf 3 + 109 * 2)).take 1 = [7] ∧
      ([1] : List Nat) ≠ [7]) :=
  ⟨⟨by decide, by decide, by decide⟩, ⟨by decide, by decide, by decide⟩⟩

/-- C7 amended: in the post-match phase of `SelectiveReadDataRegion`,
when the bank length the code works with is smaller than the window
`address*2 + length*2` computed in `uint32_t` (i.e. mod 2^32), the
extraction returns `ERROR_INVALID_REQ` with no data copied and
`dataLengthRead = 0`; otherwise it succeeds and copies
`min(length*2, capacity)` bytes of the response starting at the
`uint8_t` index `(BankStartPos + address*2) mod 256` — which is the
window at byte offset `address*2` inside the bank exactly when
`BankStartPos + address*2` does not wrap (third clause, whose bound
also keeps the C `msg` accesses inside the message). -/
theorem selectiveRead_window_extraction_uint32 :
    ∀ (bank address length capacity : Nat) (m : List Nat),
    (BanklengthOf bank m < (address * 2 + length * 2) % 4294967296 →
      selExtract bank address length capacity m = (ERROR_INVALID_REQ, [], 0)) ∧
    ((address * 2 + length * 2) % 4294967296 ≤ BanklengthOf bank m →
      selExtract bank address length capacity m =
        (RESPONSE_SUCCESS,
         (List.range (min (length * 2) capacity)).map
           (fun x => m.getD ((BankStartPosOf bank + address * 2) % 256 + x) 0),
         min (length * 2) capacity)) ∧
    ((address * 2 + length * 2) % 4294967296 ≤ BanklengthOf bank m →
      BankStartPosOf bank + address * 2 < 256 →
      BankStartPosOf bank + address * 2 + min (length * 2) capacity ≤
        m.length →
      selExtract bank address length capacity m =
        (RESPONSE_SUCCESS,
         (m.drop (BankStartPosOf bank + address * 2)).take
           (min (length * 2) capacity),
         min (length * 2) capacity)) := by
  intro bank address length capacity m
  refine ⟨?_, ?_, ?_⟩
  · intro h
    unfold selExtract
    rw [if_pos h]
  · intro h
    unfold selExtract
    rw [if_neg (by omega)]
  · intro h hs hlen
    unfold selExtract
    rw [if_neg (by omega)]
    show (RESPONSE_SUCCESS,
      (List.range (min (length * 2) capacity)).map
        (fun x => m.getD ((BankStartPosOf bank + address * 2) % 256 + x) 0),
      min (length * 2) capacity) = _
    rw [Nat.mod_eq_of_lt hs, map_getD_range_eq_drop_take m _ _ hlen]

/-- C7 amended, witness: evaluated on `winMsg1` (reported bank length
4): a 3-word window is rejected; a 1-word window at address 0 succeeds
and yields the bank's first two bytes. -/
theorem selectiveRead_window_extraction_uint32_witness :
    selExtract 3 0 3 16 winMsg1 = (ERROR_INVALID_REQ, [], 0) ∧
    selExtract 3 0 1 16 winMsg1 = (RESPONSE_SUCCESS, [7, 8], 2) :=
  ⟨(selectiveRead_window_extraction_uint32 3 0 3 16 winMsg1).1 (by decide),
   by
    have h := (selectiveRead_window_extraction_uint32 3 0 1 16 winMsg1).2.2
      (by decide) (by decide) (by decide)
    simpa [winMsg1] using h⟩

/-! ## Read-all-banks payload parsing (RFID::ReadingAllBanks, cpp
lines 855-917)

After the tag-id-buffer exchange, the code walks the bank blocks of the
payload: `datalength = (msg[22] << 8 | msg[23]) / 8` bytes of bank data
start at offset 24; each block is a bank-type byte (top nibble is the
bank), a length byte in words (`* 2` into the `uint8_t` `bankLength`,
hence `% 256`), then that many data bytes.  Each destination
`TMR_uint8List` carries the caller's capacity in `max`; the copy clamps
`bankLength` to it.  The loop index `i` is a `uint8_t` (all updates
`% 256`); an unrecognized bank nibble aborts with `RESPONSE_FAIL`.  The
C loop cannot terminate when `datalength > 255` (the `uint8_t` index
wraps), so the walk takes fuel and returns `Option`. -/

structure TMR_uint8List where
  list : List Nat
  max : Nat
  len : Nat
deriving DecidableEq

structure TMR_TagReadData where
  userMemData : TMR_uint8List
  tidMemData : TMR_uint8List
  reservedMemData : TMR_uint8List
  epcMemData : TMR_uint8List
  epc : List Nat
  epclen : Nat
deriving DecidableEq

def bankCopy (msg : List Nat) (start cnt : Nat) : List Nat :=
  (List.range cnt).map fun j => msg.getD (start + j) 0

def bankNibble (msg : List Nat) (offset i : Nat) : Nat :=
  (msg.getD (offset + i) 0 >>> 4) &&& 0xF

def declaredBankBytes (msg : List Nat) (offset i : Nat) : Nat :=
  (msg.getD (offset + (i + 1) % 256) 0 * 2) % 256

def parseBankBlock (msg : List Nat) (offset i : Nat) (read : TMR_TagReadData) :
    Option (TMR_TagReadData × Nat) :=
  let bank := bankNibble msg offset i
  let bankLength := declaredBankBytes msg offset i
  let i2 := (i + 2) % 256
  if bank = TMR_GEN2_BANK_USER then
    let bl := if bankLength > read.userMemData.max then read.userMemData.max
      else bankLength
    some ({ read with
      userMemData := ⟨bankCopy msg (offset + i2) bl, read.userMemData.max, bl⟩ },
      (i2 + bl) % 256)
  else if bank = TMR_GEN2_BANK_TID then
    let bl := if bankLength > read.tidMemData.max then read.tidMemData.max
      else bankLength
    some ({ read with
      tidMemData := ⟨bankCopy msg (offset + i2) bl, read.tidMemData.max, bl⟩ },
      (i2 + bl) % 256)
  else if bank = TMR_GEN2_BANK_RESERVED then
    let bl := if bankLength > read.reservedMemData.max then read.reservedMemData.max
      else bankLength
    some ({ read with
      reservedMemData := ⟨bankCopy msg (offset + i2) bl, read.reservedMemData.max, bl⟩ },
      (i2 + bl) % 256)
  else if bank = TMR_GEN2_BANK_EPC then
    let bl := if bankLength > read.epcMemData.max then read.epcMemData.max
      else bankLength
    let epcNew := (List.range bl).foldl
      (fun acc j =>
        if 3 < j ∧ j - 4 < 32 then acc.set (j - 4) (msg.getD (offset + i2 + j) 0)
        else acc)
      read.epc
    some ({ read with
      epcMemData := ⟨bankCopy msg (offset + i2) bl, read.epcMemData.max, bl⟩,
      epc := epcNew,
      epclen := (bl + 252) % 256 },
      (i2 + bl) % 256)
  else none

def parseBanksLoop (msg : List Nat) (datalength : Nat) :
    Nat → Nat → TMR_TagReadData → Option (Nat × TMR_TagReadData)
  | 0, _, _ => none
  | fuel + 1, i, read =>
    if i < datalength then
      match parseBankBlock msg 24 i read with
      | none => some (RESPONSE_FAIL, read)
      | some (read2, i2) => parseBanksLoop msg datalength fuel i2 read2
    else some (ALL_GOOD, read)

def ReadingAllBanksParse (msg : List Nat) (read : TMR_TagReadData)
    (fuel : Nat) : Option (Nat × TMR_TagReadData) :=
  parseBanksLoop msg ((msg.getD 22 0 <<< 8 ||| msg.getD 23 0) / 8) fuel 0 read

/-- Well-formedness of one destination: the stored length never exceeds
the caller's capacity and matches the stored bytes. -/
def WFList (l : TMR_uint8List) : Prop :=
  l.len ≤ l.max ∧ l.list.length = l.len

def WFBanks (read : TMR_TagReadData) : Prop :=
  WFList read.userMemData ∧ WFList read.tidMemData ∧
  WFList read.reservedMemData ∧ WFList read.epcMemData ∧
  read.epc.length = 32

/-- The destination the parser writes for each recognized bank-type
nibble. -/
def selectMemData : Nat → TMR_TagReadData → TMR_uint8List
  | 0, read => read.reservedMemData
  | 1, read => read.epcMemData
  | 2, read => read.tidMemData
  | 3, read => read.userMemData
  | _, _ => ⟨[], 0, 0⟩

lemma length_bankCopy (msg : List Nat) (s n : Nat) :
    (bankCopy msg s n).length = n := by
  simp [bankCopy]

lemma length_epcFold (msg : List Nat) (base : Nat) :
    ∀ (inds : List Nat) (l : List Nat),
    (inds.foldl
      (fun acc j =>
        if 3 < j ∧ j - 4 < 32 then acc.set (j - 4) (msg.getD (base + j) 0)
        else acc) l).length = l.length := by
  intro inds
  induction inds with
  | nil => intro l; rfl
  | cons a as ih =>
      intro l
      simp only [List.foldl_cons]
      rw [ih]
      split_ifs <;> simp [List.length_set]

lemma parseBankBlock_WF (msg : List Nat) (offset i : Nat)
    (read read2 : TMR_TagReadData) (i2 : Nat) (hwf : WFBanks read)
    (h : parseBankBlock msg offset i read = some (read2, i2)) :
    WFBanks read2 := by
  obtain ⟨hu, ht, hr, he, hepc⟩ := hwf
  simp only [parseBankBlock] at h
  split_ifs at h with h1 h2 h3 h4 <;>
    simp only [Option.some.injEq, Prod.mk.injEq] at h <;>
    obtain ⟨h5, -⟩ := h <;> subst h5 <;>
    refine ⟨⟨?_, ?_⟩, ⟨?_, ?_⟩, ⟨?_, ?_⟩, ⟨?_, ?_⟩, ?_⟩ <;> dsimp only <;>
    first
      | exact hu.1 | exact hu.2 | exact ht.1 | exact ht.2
      | exact hr.1 | exact hr.2 | exact he.1 | exact he.2
      | exact hepc
      | omega
      | exact length_bankCopy _ _ _
      | (rw [length_epcFold]; exact hepc)

lemma parseBanksLoop_WF (msg : List Nat) (datalength : Nat) :
    ∀ (fuel i : Nat) (read : TMR_TagReadData) (res : Nat × TMR_TagReadData),
    WFBanks read → parseBanksLoop msg datalength fuel i read = some res →
    WFBanks res.2 := by
  intro fuel
  induction fuel with
  | zero => intro i read res _ h; exact absurd h (by simp [parseBanksLoop])
  | succ fuel ih =>
      intro i read res hwf h
      unfold parseBanksLoop at h
      split_ifs at h with hi
      · cases hb : parseBankBlock msg 24 i read with
        | none =>
            rw [hb] at h
            simp only [Option.some.injEq] at h
            subst h
            exact hwf
        | some p =>
            rw [hb] at h
            exact ih p.2 p.1 res
              (parseBankBlock_WF msg 24 i read p.1 p.2 hwf (by rw [hb])) h
      · simp only [Option.some.injEq] at h
        subst h
        exact hwf

/-- C8: (a) starting from well-formed destinations, the read-all-banks
parser always leaves every destination with `len ≤ max` and exactly
`len` stored bytes: each copy clamps the declared bank length to the
caller's capacity and never writes past it; (b) a block whose bank-type
nibble is none of Reserved/EPC/TID/User (nibble ≥ 4) is rejected, and
the walk then stops with `RESPONSE_FAIL`; (c) for each recognized
nibble the parser stores and reports exactly the clamped length
`min(declared bytes, capacity)` in the corresponding destination. -/
theorem readingAllBanks_clamps_and_rejects_unknown_bank :
    (∀ (msg : List Nat) (read : TMR_TagReadData) (fuel : Nat)
        (res : Nat × TMR_TagReadData),
      WFBanks read → ReadingAllBanksParse msg read fuel = some res →
      WFBanks res.2) ∧
    (∀ (msg : List Nat) (offset i : Nat) (read : TMR_TagReadData),
      4 ≤ bankNibble msg offset i → parseBankBlock msg offset i read = none) ∧
    (∀ (msg : List Nat) (datalength fuel i : Nat) (read : TMR_TagReadData),
      i < datalength → parseBankBlock msg 24 i read = none →
      parseBanksLoop msg datalength (fuel + 1) i read
        = some (RESPONSE_FAIL, read)) ∧
    (∀ (msg : List Nat) (offset i : Nat) (read : TMR_TagReadData),
      bankNibble msg offset i ≤ 3 →
      ((parseBankBlock msg offset i read).map fun p =>
          ((selectMemData (bankNibble msg offset i) p.1).len,
           (selectMemData (bankNibble msg offset i) p.1).list.length))
        = some (min (declaredBankBytes msg offset i)
                  (selectMemData (bankNibble msg offset i) read).max,
                min (declaredBankBytes msg offset i)
                  (selectMemData (bankNibble msg offset i) read).max)) := by
  refine ⟨?_, ?_, ?_, ?_⟩
  · intro msg read fuel res hwf h
    exact parseBanksLoop_WF msg _ fuel 0 read res hwf h
  · intro msg offset i read h
    simp only [parseBankBlock]
    rw [if_neg (by unfold TMR_GEN2_BANK_USER; omega),
      if_neg (by unfold TMR_GEN2_BANK_TID; omega),
      if_neg (by unfold TMR_GEN2_BANK_RESERVED; omega),
      if_neg (by unfold TMR_GEN2_BANK_EPC; omega)]
  · intro msg datalength fuel i read hi hb
    unfold parseBanksLoop
    rw [if_pos hi, hb]
  · intro msg offset i read h
    have h4 : bankNibble msg offset i = 0 ∨ bankNibble msg offset i = 1 ∨
        bankNibble msg offset i = 2 ∨ bankNibble msg offset i = 3 := by omega
    rcases h4 with h0 | h0 | h0 | h0 <;>
      simp only [parseBankBlock, h0, selectMemData, TMR_GEN2_BANK_USER,
        TMR_GEN2_BANK_TID, TMR_GEN2_BANK_RESERVED, TMR_GEN2_BANK_EPC,
        length_bankCopy, Option.map_some', Option.some.injEq,
        Prod.mk.injEq] <;>
      norm_num [min_def] <;>
      split_ifs <;> simp only [length_bankCopy] <;>
      first
        | exact ⟨trivial, trivial⟩
        | omega

/-- All-empty destinations (capacity 0 everywhere), as a caller may
legitimately provide. -/
def emptyBanks : TMR_TagReadData :=
  ⟨⟨[], 0, 0⟩, ⟨[], 0, 0⟩, ⟨[], 0, 0⟩, ⟨[], 0, 0⟩, List.replicate 32 0, 0⟩

/-- C8 witness: the clamp and the invalid-bank rejection evaluated on
concrete payloads: a block with bank nibble 4 at the data offset is
rejected and stops the walk with `RESPONSE_FAIL`; a User block declaring
4 bytes against capacity 0 stores and reports 0 bytes; a trivial whole
run preserves well-formedness. -/
theorem readingAllBanks_clamps_and_rejects_unknown_bank_witness :
    parseBankBlock (List.replicate 24 0 ++ [0x40, 0x00]) 24 0 emptyBanks
      = none ∧
    parseBanksLoop (List.replicate 24 0 ++ [0x40, 0x00]) 1 1 0 emptyBanks
      = some (RESPONSE_FAIL, emptyBanks) ∧
    ((parseBankBlock [0x30, 0x02] 0 0 emptyBanks).map fun p =>
        ((selectMemData (bankNibble [0x30, 0x02] 0 0) p.1).len,
         (selectMemData (bankNibble [0x30, 0x02] 0 0) p.1).list.length))
      = some (min (declaredBankBytes [0x30, 0x02] 0 0)
                (selectMemData (bankNibble [0x30, 0x02] 0 0) emptyBanks).max,
              min (declaredBankBytes [0x30, 0x02] 0 0)
                (selectMemData (bankNibble [0x30, 0x02] 0 0) emptyBanks).max) ∧
    WFBanks emptyBanks :=
  ⟨readingAllBanks_clamps_and_rejects_unknown_bank.2.1
      (List.replicate 24 0 ++ [0x40, 0x00]) 24 0 emptyBanks (by decide),
   readingAllBanks_clamps_and_rejects_unknown_bank.2.2.1
      (List.replicate 24 0 ++ [0x40, 0x00]) 1 0 0 emptyBanks (by decide)
      (readingAllBanks_clamps_and_rejects_unknown_bank.2.1
        (List.replicate 24 0 ++ [0x40, 0x00]) 24 0 emptyBanks (by decide)),
   readingAllBanks_clamps_and_rejects_unknown_bank.2.2.2
      [0x30, 0x02] 0 0 emptyBanks (by decide),
   readingAllBanks_clamps_and_rejects_unknown_bank.1 [] emptyBanks 1
      (ALL_GOOD, emptyBanks) (by simp [WFBanks, WFList, emptyBanks])
      (by decide)⟩
